import Mathlib

/-!
# Verification of spec claims for the Better-Python-59-Ways repository

Shallow embedding of the Python code cited by the claims, followed by one
theorem per claim.  Each definition is translated from the source file named
in its doc comment; definitions whose doc comment starts with
`Modelled from the spec:` follow the specification's words instead and exist
only to be compared against the code-derived definitions.
-/

namespace Item40

/-! ## Embedding of `src/item_40_consider_coroutines.py`

The Game-of-Life coroutine demo.  Cell states are the characters the source
uses (`ALIVE = '*'`, `EMPTY = '-'`, line 108-109).  Generator coroutines are
embedded as a resumption tree `Gen ρ`: a generator either yields an `Item`
and waits for a cell state to be sent back, or finishes with a return value
of type `ρ` (Python's `StopIteration` value).
-/

/-- `ALIVE = '*'` (line 108). -/
def ALIVE : Char := '*'

/-- `EMPTY = '-'` (line 109). -/
def EMPTY : Char := '-'

/-- The values a coroutine of item_40 can yield: `Query = namedtuple('Query',
('y', 'x'))`, `Transition = namedtuple('Transition', ('y', 'x', 'state'))`,
and the unique marker object `TICK = object()`. -/
inductive Item where
  | query (y x : Int)
  | transition (y x : Int) (state : Char)
  | tick
deriving DecidableEq, Repr

/-- A generator coroutine that yields `Item`s, receives a cell state (`Char`)
at each `yield` expression, and eventually returns a value of type `ρ`. -/
inductive Gen (ρ : Type) where
  | yieldO (out : Item) (k : Char → Gen ρ)
  | ret (r : ρ)

/-- `yield from`: run the first generator; when it returns, continue with the
second (Python passes the returned `StopIteration` value to the caller). -/
def Gen.bind {ρ σ : Type} : Gen ρ → (ρ → Gen σ) → Gen σ
  | .ret r, f => f r
  | .yieldO o k, f => .yieldO o (fun c => (k c).bind f)

/-- `count_neighbors(y, x)` (lines 144-159): yields one `Query` per neighbor
in the order North, Northeast, East, Southeast, South, Southwest, West,
Northwest, then returns how many of the eight answers equal `ALIVE`. -/
def count_neighbors (y x : Int) : Gen Nat :=
  .yieldO (.query (y + 1) (x + 0)) fun n_ =>   -- North
  .yieldO (.query (y + 1) (x + 1)) fun ne =>   -- Northeast
  .yieldO (.query (y + 0) (x + 1)) fun e_ =>   -- East
  .yieldO (.query (y - 1) (x + 1)) fun se =>   -- Southeast
  .yieldO (.query (y - 1) (x + 0)) fun s_ =>   -- South
  .yieldO (.query (y - 1) (x - 1)) fun sw =>   -- Southwest
  .yieldO (.query (y + 0) (x - 1)) fun w_ =>   -- West
  .yieldO (.query (y + 1) (x - 1)) fun nw =>   -- Northwest
  .ret ([n_, ne, e_, se, s_, sw, w_, nw].count ALIVE)

/-- `game_logic(state, neighbors)` (lines 222-231): Conway's rules. -/
def game_logic (state : Char) (neighbors : Nat) : Char :=
  if state = ALIVE then
    if neighbors < 2 then EMPTY          -- Die: Too few
    else if neighbors > 3 then EMPTY     -- Die: Too many
    else state
  else
    if neighbors = 3 then ALIVE          -- Regenerate
    else state

/-- `step_cell(y, x)` (lines 234-238): query own state, run `count_neighbors`
via `yield from`, then yield the `Transition` computed by `game_logic`. -/
def step_cell (y x : Int) : Gen Unit :=
  .yieldO (.query y x) fun state =>
  (count_neighbors y x).bind fun neighbors =>
  .yieldO (.transition y x (game_logic state neighbors)) fun _ =>
  .ret ()

/-- Drive a generator from outside: the first `next` retrieves the first
yielded item, and each answer in the list is `send`-ed to resume the
generator and retrieve its next yielded item.  Returns the list of yielded
items observed. -/
def Gen.outputs {ρ : Type} : Gen ρ → List Char → List Item
  | .ret _, _ => []
  | .yieldO o _, [] => [o]
  | .yieldO o k, a :: rest => o :: (k a).outputs rest

/-- The eight neighbor queries of `count_neighbors`, in yield order. -/
def neighbor_queries (y x : Int) : List Item :=
  [.query (y + 1) x, .query (y + 1) (x + 1), .query y (x + 1),
   .query (y - 1) (x + 1), .query (y - 1) x, .query (y - 1) (x - 1),
   .query y (x - 1), .query (y + 1) (x - 1)]

/-- Modelled from the spec: Conway's rules as the claim words them — an
`ALIVE` cell with fewer than 2 or more than 3 `ALIVE` neighbors becomes
`EMPTY`, an `EMPTY` (non-`ALIVE`) cell with exactly 3 `ALIVE` neighbors
becomes `ALIVE`, and in every other case the state is unchanged. -/
def conway_rule (s : Char) (aliveNbrs : Nat) : Char :=
  if s = ALIVE then
    if aliveNbrs < 2 ∨ aliveNbrs > 3 then EMPTY else s
  else
    if aliveNbrs = 3 then ALIVE else s

/-- The `Grid` class (lines 318-344): `height`, `width`, and `rows`, a list
of `height` rows of `width` cell characters. -/
structure Grid where
  height : Nat
  width : Nat
  rows : List (List Char)
deriving DecidableEq, Repr

/-- `Grid.__init__(height, width)` (lines 319-325): all cells `EMPTY`. -/
def Grid.new (height width : Nat) : Grid :=
  { height := height, width := width,
    rows := List.replicate height (List.replicate width EMPTY) }

/-- `Grid.query(y, x)` (lines 334-335):
`return self.rows[y % self.height][x % self.width]`.
Python's `%` on a positive modulus agrees with `Int.emod` (both results lie
in `[0, modulus)`), so the first index is `(y % height).toNat` and likewise
for columns.  A failing index lookup (Python's `IndexError`, possible only
when a row is shorter than `width` or `rows` shorter than `height`; for
`height = 0` the Python code raises `ZeroDivisionError` and `rows` is empty,
so the lookup fails here as well) is `none`. -/
def Grid.query (g : Grid) (y x : Int) : Option Char :=
  (g.rows.get? (y % (g.height : Int)).toNat).bind
    (fun row => row.get? (x % (g.width : Int)).toNat)

/-- `Grid.assign(y, x, state)` (lines 337-338):
`self.rows[y % self.height][x % self.width] = state`.
`List.set` leaves the list unchanged when the index is out of range, which
never happens for a well-formed grid with positive dimensions. -/
def Grid.assign (g : Grid) (y x : Int) (state : Char) : Grid :=
  let i := (y % (g.height : Int)).toNat
  let j := (x % (g.width : Int)).toNat
  { g with rows := g.rows.set i ((g.rows.getD i []).set j state) }

/-- Well-formedness invariant established by `Grid.__init__` and preserved by
`assign`: `rows` has `height` entries, each of length `width`. -/
def Grid.WF (g : Grid) : Prop :=
  g.rows.length = g.height ∧ ∀ row ∈ g.rows, row.length = g.width

instance (g : Grid) : Decidable g.WF := by
  unfold Grid.WF; infer_instance

/-- One unrolling of the body of `simulate(height, width)` (lines 290-295):
`yield from step_cell(y, x)` for every `y in range(height)`,
`x in range(width)` (row-major), then `yield TICK`.  The source's generator
repeats this body forever (`while True`); `live_a_generation` consumes only
the very first yielded item, so a single unrolling suffices to model it. -/
def simulate_once (height width : Nat) : Gen Unit :=
  ((List.range height).flatMap (fun y =>
      (List.range width).map (fun x => ((y : Int), (x : Int))))).foldr
    (fun c rest => (step_cell c.1 c.2).bind fun _ => rest)
    (.yieldO .tick fun _ => .ret ())

/-- `live_a_generation(grid, sim)` (lines 353-363), exactly as written:

```
progeny = Grid(grid.height, grid.width)
item = next(sim)
while item is (not TICK):
    ...
return progeny
```

`next(sim)` retrieves one yielded item (or raises `StopIteration` if the
generator is exhausted, modelled as `none`; `simulate` never exhausts).  The
loop guard compares `item` with `not TICK`, which is the boolean `False` —
not with `TICK` — and a yielded item is a `Query`, a `Transition`, or the
marker object `TICK`, never the object `False`, so `item is (not TICK)` is
false on entry, the loop body is dead code, and the function returns the
freshly created all-`EMPTY` `progeny` untouched. -/
def live_a_generation (grid : Grid) (sim : Gen Unit) : Option Grid :=
  match sim with
  | .ret _ => none
  | .yieldO _ _ => some (Grid.new grid.height grid.width)

/-- Read a cell of a well-formed grid by in-range indices (total helper). -/
def Grid.cellAt (g : Grid) (i j : Nat) : Char :=
  (g.rows.getD i []).getD j EMPTY

/-- Wrap-around read, total form of `Grid.query` (agrees with it on
well-formed grids with positive dimensions). -/
def Grid.wrap (g : Grid) (y x : Int) : Char :=
  g.cellAt (y % (g.height : Int)).toNat (x % (g.width : Int)).toNat

/-- The eight neighbor offsets, in the order `count_neighbors` visits them. -/
def neighbor_offsets : List (Int × Int) :=
  [(1, 0), (1, 1), (0, 1), (-1, 1), (-1, 0), (-1, -1), (0, -1), (1, -1)]

/-- Number of `ALIVE` cells among the eight wrap-around neighbors of
`(y, x)`. -/
def alive_neighbors (g : Grid) (y x : Int) : Nat :=
  (neighbor_offsets.map (fun d => g.wrap (y + d.1) (x + d.2))).count ALIVE

/-- Modelled from the spec: the progeny grid the claim describes — every
cell `(y, x)` holds `game_logic(s, n)` where `s` is the cell's state in `g`
and `n` is the number of `ALIVE` cells among its eight wrap-around neighbors
in `g`; one true Game-of-Life generation. -/
def one_generation_spec (g : Grid) : Grid :=
  { height := g.height, width := g.width,
    rows := (List.range g.height).map (fun y =>
      (List.range g.width).map (fun x =>
        game_logic (g.wrap (y : Int) (x : Int))
          (alive_neighbors g (y : Int) (x : Int)))) }

/-- The glider set up by the module-level demo (lines 369-374): a 5×9 grid
with `ALIVE` at (0,3), (1,4), (2,2), (2,3), (2,4). -/
def glider : Grid :=
  (((((Grid.new 5 9).assign 0 3 ALIVE).assign 1 4 ALIVE).assign 2 2
      ALIVE).assign 2 3 ALIVE).assign 2 4 ALIVE

/-- `game_logic` computes exactly the rule the spec words describe. -/
theorem game_logic_eq_conway (s : Char) (n : Nat) :
    game_logic s n = conway_rule s n := by
  unfold game_logic conway_rule
  split_ifs <;> first | rfl | (exfalso; omega)

/-- Helper: wrapped indices land inside any list as long as the modulus is
positive and equals the list's length. -/
theorem emod_toNat_lt (y : Int) (n m : Nat) (hn : 0 < n) (hm : m = n) :
    (y % (n : Int)).toNat < m := by
  have e1 : 0 ≤ y % (n : Int) :=
    Int.emod_nonneg y (by exact_mod_cast hn.ne')
  have e2 : y % (n : Int) < (n : Int) :=
    Int.emod_lt_of_pos y (by exact_mod_cast hn)
  omega

/-- Helper: `getD` with an in-range index is `get`. -/
theorem Grid.getD_row (g : Grid) {i : Nat} (hi : i < g.rows.length) :
    g.rows.getD i [] = g.rows.get ⟨i, hi⟩ := by
  rw [List.getD_eq_get?, List.get?_eq_get hi]; rfl

/-- Helper: on a well-formed grid with positive dimensions, `query` succeeds
and returns the stored cell at the wrapped coordinates. -/
theorem Grid.query_wf (g : Grid) (h1 : g.rows.length = g.height)
    (h2 : ∀ row ∈ g.rows, row.length = g.width)
    (hh : 0 < g.height) (hw : 0 < g.width) (y x : Int) :
    g.query y x =
      some (g.cellAt ((y % (g.height : Int)).toNat)
        ((x % (g.width : Int)).toNat)) := by
  unfold Grid.query Grid.cellAt
  have hi : (y % (g.height : Int)).toNat < g.rows.length :=
    emod_toNat_lt y g.height g.rows.length hh h1
  have hrow : g.rows.get? ((y % (g.height : Int)).toNat) =
      some (g.rows.get ⟨(y % (g.height : Int)).toNat, hi⟩) :=
    List.get?_eq_get hi
  have hgd : g.rows.getD ((y % (g.height : Int)).toNat) [] =
      g.rows.get ⟨(y % (g.height : Int)).toNat, hi⟩ := Grid.getD_row g hi
  rw [hrow, hgd]
  have hrl : (g.rows.get ⟨(y % (g.height : Int)).toNat, hi⟩).length =
      g.width := h2 _ (List.get_mem _ _ _)
  have hj : (x % (g.width : Int)).toNat <
      (g.rows.get ⟨(y % (g.height : Int)).toNat, hi⟩).length :=
    emod_toNat_lt x g.width _ hw hrl
  show (g.rows.get ⟨(y % (g.height : Int)).toNat, hi⟩).get?
      ((x % (g.width : Int)).toNat) = _
  rw [List.get?_eq_get hj, List.getD_eq_get?, List.get?_eq_get hj]
  rfl

/-- Helper: `assign` preserves the well-formedness invariant. -/
theorem Grid.assign_wf (g : Grid) (h1 : g.rows.length = g.height)
    (h2 : ∀ row ∈ g.rows, row.length = g.width) (hh : 0 < g.height)
    (y x : Int) (state : Char) :
    (g.assign y x state).rows.length = g.height ∧
      ∀ row ∈ (g.assign y x state).rows, row.length = g.width := by
  have hi : (y % (g.height : Int)).toNat < g.rows.length :=
    emod_toNat_lt y g.height g.rows.length hh h1
  refine ⟨by simpa [Grid.assign] using h1, ?_⟩
  intro row hmem
  rcases List.mem_or_eq_of_mem_set hmem with h | h
  · exact h2 _ h
  · subst h
    rw [List.length_set, Grid.getD_row g hi]
    exact h2 _ (List.get_mem _ _ _)

/-- Helper: after `assign`, querying the assigned coordinates yields the new
state. -/
theorem Grid.query_set_at (g : Grid) (h1 : g.rows.length = g.height)
    (h2 : ∀ row ∈ g.rows, row.length = g.width)
    (hh : 0 < g.height) (hw : 0 < g.width) (y x : Int) (state : Char) :
    (g.assign y x state).query y x = some state := by
  have hi : (y % (g.height : Int)).toNat < g.rows.length :=
    emod_toNat_lt y g.height g.rows.length hh h1
  have hrl : (g.rows.getD ((y % (g.height : Int)).toNat) []).length =
      g.width := by
    rw [Grid.getD_row g hi]; exact h2 _ (List.get_mem _ _ _)
  have hj : (x % (g.width : Int)).toNat <
      (g.rows.getD ((y % (g.height : Int)).toNat) []).length :=
    emod_toNat_lt x g.width _ hw hrl
  show ((g.rows.set _ _).get? ((y % (g.height : Int)).toNat)).bind _ = _
  rw [List.get?_set_eq_of_lt _ hi]
  show ((g.rows.getD ((y % (g.height : Int)).toNat) []).set
      ((x % (g.width : Int)).toNat) state).get?
      ((x % (g.width : Int)).toNat) = _
  rw [List.get?_set_eq_of_lt _ hj]

/-- Helper: after `assign`, every cell whose wrapped coordinates differ from
the assigned ones reads exactly as before. -/
theorem Grid.query_set_other (g : Grid) (h1 : g.rows.length = g.height)
    (hh : 0 < g.height) (hw : 0 < g.width) (y x : Int) (state : Char)
    (y2 x2 : Int)
    (hne : y2 % (g.height : Int) ≠ y % (g.height : Int) ∨
           x2 % (g.width : Int) ≠ x % (g.width : Int)) :
    (g.assign y x state).query y2 x2 = g.query y2 x2 := by
  have hh0 : ((g.height : Int)) ≠ 0 := by exact_mod_cast hh.ne'
  have hw0 : ((g.width : Int)) ≠ 0 := by exact_mod_cast hw.ne'
  by_cases hrow : (y2 % (g.height : Int)).toNat = (y % (g.height : Int)).toNat
  · -- same row index: the column indices must differ
    have hyeq : y2 % (g.height : Int) = y % (g.height : Int) := by
      have e1 : 0 ≤ y2 % (g.height : Int) := Int.emod_nonneg y2 hh0
      have e2 : 0 ≤ y % (g.height : Int) := Int.emod_nonneg y hh0
      omega
    have hcolInt : x2 % (g.width : Int) ≠ x % (g.width : Int) := by
      rcases hne with h | h
      · exact absurd hyeq h
      · exact h
    have hcol : (x2 % (g.width : Int)).toNat ≠ (x % (g.width : Int)).toNat := by
      have e1 : 0 ≤ x2 % (g.width : Int) := Int.emod_nonneg x2 hw0
      have e2 : 0 ≤ x % (g.width : Int) := Int.emod_nonneg x hw0
      omega
    have hi : (y % (g.height : Int)).toNat < g.rows.length :=
      emod_toNat_lt y g.height g.rows.length hh h1
    show ((g.rows.set _ _).get? ((y2 % (g.height : Int)).toNat)).bind _ = _
    rw [hrow, List.get?_set_eq_of_lt _ hi]
    show ((g.rows.getD ((y % (g.height : Int)).toNat) []).set
        ((x % (g.width : Int)).toNat) state).get?
        ((x2 % (g.width : Int)).toNat) = _
    rw [List.get?_set_ne _ _ (fun hc => hcol hc.symm)]
    unfold Grid.query
    rw [hrow, List.get?_eq_get hi, Grid.getD_row g hi]
    rfl
  · show ((g.rows.set _ _).get? ((y2 % (g.height : Int)).toNat)).bind _ = _
    rw [List.get?_set_ne _ _ (fun hc => hrow hc.symm)]
    rfl

/-- C9: for every `Grid` with height `h ≥ 1` and width `w ≥ 1` and all
integers `y` and `x` (including negative and out-of-range values),
`query(y, x)` returns the cell stored at row `y mod h` and column `x mod w`
instead of raising an index error, and `assign(y, x, state)` changes exactly
that one cell, leaving every other cell and the grid's height and width
unchanged: out-of-bounds coordinates wrap. -/
theorem grid_wraparound_and_frame (g : Grid) (hwf : g.WF)
    (hh : 1 ≤ g.height) (hw : 1 ≤ g.width) (y x : Int) (state : Char) :
    g.query y x =
      some (g.cellAt ((y % (g.height : Int)).toNat)
        ((x % (g.width : Int)).toNat)) ∧
    (g.assign y x state).height = g.height ∧
    (g.assign y x state).width = g.width ∧
    (g.assign y x state).WF ∧
    (g.assign y x state).query y x = some state ∧
    ∀ y2 x2 : Int,
      (y2 % (g.height : Int) ≠ y % (g.height : Int) ∨
       x2 % (g.width : Int) ≠ x % (g.width : Int)) →
      (g.assign y x state).query y2 x2 = g.query y2 x2 :=
  ⟨Grid.query_wf g hwf.1 hwf.2 hh hw y x, rfl, rfl,
   Grid.assign_wf g hwf.1 hwf.2 hh y x state,
   Grid.query_set_at g hwf.1 hwf.2 hh hw y x state,
   fun y2 x2 hne =>
     Grid.query_set_other g hwf.1 hh hw y x state y2 x2 hne⟩

/-- Witness for C9 on the demo glider grid with out-of-range coordinates
`(-3, 100)`: `-3 mod 5 = 2`, `100 mod 9 = 1`, the read wraps to cell
`(2, 1)`, the assignment lands there, and an untouched cell is unchanged. -/
theorem grid_wraparound_and_frame_witness :
    Grid.WF glider ∧ 1 ≤ glider.height ∧ 1 ≤ glider.width ∧
    glider.query (-3) 100 =
      some (glider.cellAt (((-3 : Int) % (glider.height : Int)).toNat)
        (((100 : Int) % (glider.width : Int)).toNat)) ∧
    (glider.assign (-3) 100 ALIVE).query (-3) 100 = some ALIVE ∧
    (glider.assign (-3) 100 ALIVE).query 0 3 = glider.query 0 3 :=
  have h := grid_wraparound_and_frame glider (by decide) (by decide)
    (by decide) (-3) 100 ALIVE
  ⟨by decide, by decide, by decide, h.1, h.2.2.2.2.1,
   h.2.2.2.2.2 0 3 (by decide)⟩

/-- C4: driving `step_cell(y, x)` by answering its first yielded
`Query(y, x)` with `s` and the eight subsequent neighbor `Query`s with the
neighbor states makes it finally yield `Transition(y, x, s')`, where `s'`
follows Conway's rules as computed by `game_logic` over `count_neighbors`'s
count: an `ALIVE` cell with fewer than 2 or more than 3 `ALIVE` neighbors
becomes `EMPTY`, an `EMPTY` cell with exactly 3 `ALIVE` neighbors becomes
`ALIVE`, and in every other case the state is unchanged (`conway_rule`). -/
theorem step_cell_follows_conway (y x : Int)
    (s n1 n2 n3 n4 n5 n6 n7 n8 : Char) (_hs : s = ALIVE ∨ s = EMPTY) :
    (step_cell y x).outputs (s :: [n1, n2, n3, n4, n5, n6, n7, n8]) =
      (Item.query y x :: neighbor_queries y x) ++
        [Item.transition y x
          (conway_rule s ([n1, n2, n3, n4, n5, n6, n7, n8].count ALIVE))] := by
  simp [step_cell, count_neighbors, Gen.bind, Gen.outputs, neighbor_queries,
    game_logic_eq_conway]

/-- Witness for C4: an `EMPTY` cell at (4, 7) with exactly three `ALIVE`
neighbors; `step_cell` yields the nine queries and then the transition to
`ALIVE` (regeneration). -/
theorem step_cell_follows_conway_witness :
    (EMPTY = ALIVE ∨ EMPTY = EMPTY) ∧
    (step_cell 4 7).outputs
        [EMPTY, ALIVE, ALIVE, ALIVE, EMPTY, EMPTY, EMPTY, EMPTY, EMPTY] =
      [Item.query 4 7, Item.query 5 7, Item.query 5 8, Item.query 4 8,
       Item.query 3 8, Item.query 3 7, Item.query 3 6, Item.query 4 6,
       Item.query 5 6, Item.transition 4 7 ALIVE] := by
  have h := step_cell_follows_conway 4 7 EMPTY
    ALIVE ALIVE ALIVE EMPTY EMPTY EMPTY EMPTY EMPTY (Or.inr rfl)
  exact ⟨Or.inr rfl, h.trans (by decide)⟩

/-- C1 (code bug): because the loop guard of `live_a_generation` reads
`while item is (not TICK)` — comparing each item with the boolean `False`
instead of testing `item is not TICK` — the loop body never runs, and every
call returns the freshly created all-`EMPTY` progeny grid instead of the
grid advanced by one Game-of-Life generation.  On the module's own glider
demo the progeny is `Grid.new 5 9` (all cells `EMPTY`), while the
generation the claim describes (`one_generation_spec`, built from
`game_logic` over the eight wrap-around neighbor counts) differs from it:
for instance it has `ALIVE` at cell (2, 3). -/
theorem live_a_generation_returns_empty_grid :
    live_a_generation glider (simulate_once 5 9) = some (Grid.new 5 9) ∧
    one_generation_spec glider ≠ Grid.new 5 9 ∧
    (one_generation_spec glider).cellAt 2 3 = ALIVE ∧
    (Grid.new 5 9).cellAt 2 3 = EMPTY := by
  exact ⟨by decide, by decide, by decide, by decide⟩

end Item40

namespace Item39

/-! ## Embedding of `src/item_39_use_queue.py`

`ClosableQueue` (lines 283-301) and `StoppableWorker` (lines 307-319).  A
queue's pending contents are modelled as a FIFO list: `put` appends at the
tail and `get` removes from the head.  The distinguished
`SENTINEL = object()` is one element of the type `QueueElem α`; the payload
items are the others. -/

/-- An object placed on a `ClosableQueue`: either an ordinary item or the
class-level `SENTINEL = object()`. -/
inductive QueueElem (α : Type) where
  | item (a : α)
  | sentinel
deriving DecidableEq, Repr

/-- `ClosableQueue.close` (lines 286-287): `self.put(self.SENTINEL)` — the
sentinel is appended after everything already on the queue. -/
def close {α : Type} (pending : List (QueueElem α)) : List (QueueElem α) :=
  pending ++ [.sentinel]

/-- `ClosableQueue.__iter__` (lines 293-301):

```
while True:
    item = self.get()
    try:
        if item is self.SENTINEL:
            return  # Cause the thread to exit
        yield item
    finally:
        self.task_done()
```

Returns the list of objects the iterator yields, given the queue's pending
contents.  `get()` on an exhausted queue blocks forever, so once the pending
list is empty no further item is ever yielded (the `[]` case). -/
def queue_iter {α : Type} : List (QueueElem α) → List (QueueElem α)
  | [] => []
  | .sentinel :: _ => []
  | .item a :: rest => .item a :: queue_iter rest

/-- `StoppableWorker.run` (lines 317-319):

```
for item in self.in_queue:
    result = self.func(item)
    self.out_queue.put(result)
```

Returns the contents put on `out_queue`: `func` applied to each object the
`in_queue` iterator yields, in order.  When the `for` loop is exhausted the
method returns (the worker thread shuts down). -/
def StoppableWorker.run {α β : Type} (func : QueueElem α → β)
    (in_queue : List (QueueElem α)) : List β :=
  (queue_iter in_queue).map func

/-- Helper: iterating a queue of plain items followed by the sentinel yields
exactly those items, in order. -/
theorem queue_iter_items_close {α : Type} (items : List α) :
    queue_iter (close (items.map QueueElem.item)) =
      items.map QueueElem.item := by
  induction items with
  | nil => rfl
  | cons a rest ih =>
      simpa [close, queue_iter] using ih

/-- Helper: the sentinel is never among the yielded objects, whatever the
queue holds. -/
theorem sentinel_not_yielded {α : Type} (pending : List (QueueElem α)) :
    QueueElem.sentinel ∉ queue_iter pending := by
  induction pending with
  | nil => simp [queue_iter]
  | cons e rest ih =>
      cases e with
      | sentinel => simp [queue_iter]
      | item a => simpa [queue_iter] using ih

/-- C2: for every finite sequence of items put on a `ClosableQueue` followed
by exactly one `close()`, iterating the queue yields exactly those items in
FIFO order and then terminates; the `SENTINEL` object itself is never
yielded (for any queue contents), so a `StoppableWorker` consuming the queue
applies its function to each item exactly once, in order, and then its `run`
method returns the list of results it put on the output queue. -/
theorem closable_queue_fifo_shutdown {α β : Type} (items : List α)
    (func : QueueElem α → β) :
    queue_iter (close (items.map QueueElem.item)) =
      items.map QueueElem.item ∧
    (∀ pending : List (QueueElem α),
      QueueElem.sentinel ∉ queue_iter pending) ∧
    StoppableWorker.run func (close (items.map QueueElem.item)) =
      items.map (fun a => func (QueueElem.item a)) := by
  refine ⟨queue_iter_items_close items, sentinel_not_yielded, ?_⟩
  unfold StoppableWorker.run
  rw [queue_iter_items_close items, List.map_map]
  rfl

end Item39

namespace Item24

/-! ## Embedding of `src/item_24_use_classmethod.py`

The `@classmethod` MapReduce demo, generic version (classes `GenericInputData`
/ `PathInputData`, lines 173-198; `GenericWorker` / `LineCountWorker`, lines
206-238; `execute`, lines 102-112; `mapreduce`, lines 244-246).  A directory
is modelled as the list of its files, `(name, contents)` pairs in
`os.listdir` order.  Python exceptions are the error side of `Except`. -/

/-- A directory: `(file name, file contents)` pairs in `os.listdir` order. -/
abbrev Dir := List (String × String)

inductive PyError where
  | typeError                 -- calling a class with an argument its (absent) __init__ rejects
  | indexError                -- workers[0] on an empty list
  | attributeError (name : String)  -- looking up an attribute no class defines
deriving DecidableEq, Repr

/-- The instance layout `PathInputData.read` expects (a `self.path`
attribute). -/
structure PathInputData where
  path : String
deriving DecidableEq, Repr

/-- The constructor call `cls(os.path.join(data_dir, name))` with
`cls = PathInputData` (the `GenericInputData` subclass, lines 188-198): that
class body elides `__init__` behind the comment `# ...` (line 189) and
defines only `read` and `generate_inputs`, and its base `GenericInputData`
defines no `__init__` either, so the call falls through to
`object.__init__`, which rejects the extra `path` argument —
`TypeError: PathInputData() takes no arguments`.  (The earlier non-generic
`PathInputData`, line 31, misspells its constructor as `__int__`, so it too
never accepts a path.) -/
def PathInputData.call (_path : String) : Except PyError PathInputData :=
  .error .typeError

/-- `PathInputData.generate_inputs(cls, config)` (lines 193-198):

```
data_dir = config['data_dir']
for name in os.listdir(data_dir):
    yield cls(os.path.join(data_dir, name))
```

The generator is drained by `create_workers`; the first failing constructor
call propagates its exception.  `os.path.join` concatenates with `/`. -/
def generate_inputs (data_dir : String) (dir : Dir) :
    Except PyError (List PathInputData) :=
  (dir.map Prod.fst).mapM
    (fun name => PathInputData.call (data_dir ++ "/" ++ name))

/-- The instance layout `LineCountWorker.map`/`reduce` expect
(`self.input_data`; `result` is assigned by `map`). -/
structure LineCountWorker where
  input_data : PathInputData
deriving DecidableEq, Repr

/-- The constructor call `cls(input_data)` with `cls = LineCountWorker` made
by `create_workers` (line 218): `LineCountWorker` (lines 231-238) elides its
`__init__` behind `#...` (line 232) and defines only `map` and `reduce`, and
`GenericWorker` (lines 206-219) elides its `__init__` too (line 207), so the
call falls through to `object.__init__` and raises `TypeError`, exactly as
for `PathInputData`. -/
def LineCountWorker.call (_input_data : PathInputData) :
    Except PyError LineCountWorker :=
  .error .typeError

/-- `GenericWorker.create_workers(cls, input_class, config)` (lines
214-219): one worker per generated input; any constructor exception
propagates. -/
def create_workers (data_dir : String) (dir : Dir) :
    Except PyError (List LineCountWorker) :=
  (generate_inputs data_dir dir).bind
    (fun inputs => inputs.mapM LineCountWorker.call)

/-- `execute(workers)` (lines 102-112), exactly as written:

```
threads = [threading.Thread(target=w.wap) for w in workers]
for thread in threads: thread.start()
for thread in threads: thread.join()
first, rest = workers[0], workers[1:]
for worker in rest: first.reduce(worker)
return first.result
```

For an empty `workers` list the comprehension and both loops do nothing and
`workers[0]` raises `IndexError: list index out of range` (the module's own
comment, lines 138-145, records exactly this traceback).  For a nonempty
list, building the very first `Thread` evaluates the attribute `w.wap` — a
misspelling of `w.map` that no class in the file defines — and raises
`AttributeError` before any counting can happen. -/
def execute (workers : List LineCountWorker) : Except PyError Nat :=
  match workers with
  | [] => .error .indexError
  | _ :: _ => .error (.attributeError "wap")

/-- `mapreduce(worker_class, input_class, config)` (lines 244-246) at the
demo's arguments `mapreduce(LineCountWorker, PathInputData, config)` with
`config = {'data_dir': tmpdir}`:

```
workers = worker_class.create_workers(input_class, config)
return execute(workers)
``` -/
def mapreduce (data_dir : String) (dir : Dir) : Except PyError Nat :=
  (create_workers data_dir dir).bind execute

/-- `data.count('\n')` as `LineCountWorker.map` (lines 233-235) computes
it. -/
def newline_count (data : String) : Nat :=
  data.toList.count '\n'

/-- Modelled from the spec: the value C3 says `mapreduce` returns — the
total number of newline characters summed over the contents of all files in
the directory. -/
def total_newlines (dir : Dir) : Nat :=
  (dir.map (fun f => newline_count f.2)).sum

/-- C3 (code bug): on a directory containing one file whose contents hold
two newline characters, `mapreduce(LineCountWorker, PathInputData,
{'data_dir': dir})` does not return that count: the first constructor call
`PathInputData(path)` raises `TypeError` (the `__init__` methods are elided
behind `# ...` comments), so `mapreduce` raises instead of returning — and
even with constructible workers, `execute`'s `w.wap` misspelling would raise
`AttributeError` — contradicting the claim's described result of 2. -/
theorem mapreduce_raises_instead_of_counting :
    mapreduce "tmpdir" [("test.txt", "a\nb\n")] = .error .typeError ∧
    total_newlines [("test.txt", "a\nb\n")] = 2 ∧
    mapreduce "tmpdir" [("test.txt", "a\nb\n")] ≠
      .ok (total_newlines [("test.txt", "a\nb\n")]) ∧
    execute [⟨⟨"tmpdir/test.txt"⟩⟩] = .error (.attributeError "wap") := by
  refine ⟨rfl, by decide, ?_, rfl⟩
  rw [show mapreduce "tmpdir" [("test.txt", "a\nb\n")] =
    Except.error PyError.typeError from rfl]
  exact fun h => nomatch h

/-- C10: when the configured directory contains no files, `create_workers`
returns an empty list, and `execute` — and therefore `mapreduce` — raises
`IndexError` from evaluating `workers[0]`, producing no result value. -/
theorem empty_dir_raises_index_error (data_dir : String) :
    create_workers data_dir [] = .ok [] ∧
    execute [] = .error .indexError ∧
    mapreduce data_dir [] = .error .indexError :=
  ⟨rfl, rfl, rfl⟩

end Item24

namespace Item13

/-! ## Embedding of `src/item_13_try_except_else_finally.py`

`load_json_key` (lines 45-51):

```
def load_json_key(data, key):
    try:
        result_dict = json.loads(data)  # May raise ValueError
    except ValueError as e:
        raise KeyError from e
    else:
        return result_dict[key]   # May raise KeyError
```

`json.loads` is the standard library's JSON parser, so the function is
embedded generically over it: `loads` maps the data string either to a
parsed dictionary (an association list) or to the `ValueError` it raises on
malformed input. -/

/-- The exception `json.loads` raises on malformed input (`ValueError`). -/
structure ValueError where
  msg : String
deriving DecidableEq, Repr

/-- The observable outcome of a `load_json_key` call. -/
inductive Outcome (V : Type) where
  /-- The `else` block returned `result_dict[key]`. -/
  | ok (v : V)
  /-- The `except ValueError` block ran `raise KeyError from e`. -/
  | keyErrorFrom (cause : ValueError)
  /-- `result_dict[key]` raised `KeyError(key)`, which the function's own
  `except` clause (guarding only the `try` block) does not handle. -/
  | keyError (key : String)
deriving DecidableEq, Repr

/-- `load_json_key(data, key)` (lines 45-51), with dictionary indexing
`result_dict[key]` modelled as association-list lookup. -/
def load_json_key {V : Type}
    (loads : String → Except ValueError (List (String × V)))
    (data : String) (key : String) : Outcome V :=
  match loads data with
  | .error e => .keyErrorFrom e
  | .ok result_dict =>
      match result_dict.lookup key with
      | some v => .ok v
      | none => .keyError key

/-- C7: for every data string and key — when the data is not valid JSON
(`loads` raises a `ValueError`), `load_json_key` raises a `KeyError` chained
from that `ValueError`; when the data parses to a dictionary containing the
key, it returns the associated value from the `else` block; and when the
parsed dictionary lacks the key, the `KeyError` from the lookup propagates
to the caller unhandled by the function's own `except` clause. -/
theorem load_json_key_routes {V : Type}
    (loads : String → Except ValueError (List (String × V)))
    (data key : String) :
    (∀ e, loads data = .error e →
      load_json_key loads data key = .keyErrorFrom e) ∧
    (∀ d v, loads data = .ok d → d.lookup key = some v →
      load_json_key loads data key = .ok v) ∧
    (∀ d, loads data = .ok d → d.lookup key = none →
      load_json_key loads data key = .keyError key) := by
  refine ⟨?_, ?_, ?_⟩
  · intro e he
    simp [load_json_key, he]
  · intro d v hd hv
    simp [load_json_key, hd, hv]
  · intro d hd hv
    simp [load_json_key, hd, hv]

/-- A concrete stand-in for `json.loads` used by the witness: `"good"`
parses to the dictionary with `"foo" ↦ 5`; everything else raises
`ValueError('Expecting value')`. -/
def demo_loads : String → Except ValueError (List (String × Nat)) :=
  fun data =>
    if data = "good" then .ok [("foo", 5)]
    else .error ⟨"Expecting value"⟩

/-- Witness for C7: the three routes taken at concrete inputs. -/
theorem load_json_key_routes_witness :
    load_json_key demo_loads "bad json" "foo" =
      .keyErrorFrom ⟨"Expecting value"⟩ ∧
    load_json_key demo_loads "good" "foo" = .ok 5 ∧
    load_json_key demo_loads "good" "bar" = .keyError "bar" :=
  ⟨(load_json_key_routes demo_loads "bad json" "foo").1
     ⟨"Expecting value"⟩ rfl,
   (load_json_key_routes demo_loads "good" "foo").2.1
     [("foo", 5)] 5 rfl rfl,
   (load_json_key_routes demo_loads "good" "bar").2.2
     [("foo", 5)] rfl rfl⟩

end Item13

namespace Item41

/-! ## Embedding of `src/item_41_consider_concurrent_futures.py`

`gcd` (lines 59-64):

```
def gcd(pair):
    a, b = pair
    low = min(a, b)
    for i in range(low, 0, -1):
        if a % i == 0 and b % i == 0:
            return i
```

The loop scans `low, low-1, ..., 1` and returns the first `i` dividing both
`a` and `b`; if the loop falls off the end (only possible when `low = 0`,
since `1` divides everything), the Python function returns `None`. -/

/-- The descending scan `for i in range(s, 0, -1)`: try `s, s-1, ..., 1`,
return the first common divisor, `none` if the loop is exhausted. -/
def gcd_loop (a b : Nat) : Nat → Option Nat
  | 0 => none
  | i + 1 =>
      if a % (i + 1) = 0 ∧ b % (i + 1) = 0 then some (i + 1)
      else gcd_loop a b i

/-- `gcd(pair)` (lines 59-64). -/
def gcd (pair : Nat × Nat) : Option Nat :=
  gcd_loop pair.1 pair.2 (min pair.1 pair.2)

/-- Helper: starting the scan anywhere at or above `Nat.gcd a b` finds
exactly `Nat.gcd a b`, because every common divisor divides the gcd and
hence cannot exceed it. -/
theorem gcd_loop_finds (a b : Nat) (ha : 0 < a) (s : Nat)
    (hs : Nat.gcd a b ≤ s) : gcd_loop a b s = some (Nat.gcd a b) := by
  induction s with
  | zero =>
      exfalso
      have := Nat.gcd_pos_of_pos_left b ha
      omega
  | succ i ih =>
      by_cases h : a % (i + 1) = 0 ∧ b % (i + 1) = 0
      · have hd : (i + 1) ∣ Nat.gcd a b :=
          Nat.dvd_gcd (Nat.dvd_of_mod_eq_zero h.1) (Nat.dvd_of_mod_eq_zero h.2)
        have hpos : 0 < Nat.gcd a b := Nat.gcd_pos_of_pos_left b ha
        have hle : i + 1 ≤ Nat.gcd a b := Nat.le_of_dvd hpos hd
        have heq : Nat.gcd a b = i + 1 := by omega
        rw [gcd_loop, if_pos h, heq]
      · have hne : Nat.gcd a b ≠ i + 1 := by
          intro he
          apply h
          constructor
          · exact Nat.mod_eq_zero_of_dvd (he ▸ Nat.gcd_dvd_left a b)
          · exact Nat.mod_eq_zero_of_dvd (he ▸ Nat.gcd_dvd_right a b)
        rw [gcd_loop, if_neg h]
        exact ih (by omega)

/-- C8: for every pair `(a, b)` of positive integers, `gcd((a, b))` returns
the greatest common divisor of `a` and `b`: the returned integer divides
both `a` and `b`, and no common divisor of `a` and `b` is greater than it
(the function scans downward from `min(a, b)` and returns the first common
divisor found). -/
theorem gcd_returns_greatest_common_divisor (a b : Nat)
    (ha : 0 < a) (hb : 0 < b) :
    ∃ g, gcd (a, b) = some g ∧ g ∣ a ∧ g ∣ b ∧
      ∀ d : Nat, d ∣ a → d ∣ b → d ≤ g := by
  refine ⟨Nat.gcd a b, ?_, Nat.gcd_dvd_left a b, Nat.gcd_dvd_right a b, ?_⟩
  · unfold gcd
    exact gcd_loop_finds a b ha _ (Nat.le_min.mpr
      ⟨Nat.le_of_dvd ha (Nat.gcd_dvd_left a b),
       Nat.le_of_dvd hb (Nat.gcd_dvd_right a b)⟩)
  · intro d hda hdb
    exact Nat.le_of_dvd (Nat.gcd_pos_of_pos_left b ha) (Nat.dvd_gcd hda hdb)

/-- Witness for C8 at `(12, 18)`; the scan concretely returns `6`. -/
theorem gcd_returns_greatest_common_divisor_witness :
    0 < 12 ∧ 0 < 18 ∧ gcd (12, 18) = some 6 ∧
    (∃ g, gcd (12, 18) = some g ∧ g ∣ 12 ∧ g ∣ 18 ∧
      ∀ d : Nat, d ∣ 12 → d ∣ 18 → d ≤ g) :=
  ⟨by decide, by decide, by decide,
   gcd_returns_greatest_common_divisor 12 18 (by decide) (by decide)⟩

end Item41

namespace Item56

/-! ## Embedding of `src/item_56_unittest.py`

`to_str` (lines 44-51):

```
def to_str(data):
    if isinstance(data, str):
        return data
    elif isinstance(data, bytes):
        return data.decode('utf-8')
    else:
        raise TypeError('Must supply str or bytes, '
                        'found: %r' % data)
```

and the three assertions of `UtilsTestCase` (both in this file, lines
57-64, and in `src/item_56_test_utils.py`, lines 7-15):
`to_str(b'hello') == 'hello'`, `to_str('hello') == 'hello'`, and
`to_str(object())` raises `TypeError`. -/

/-- A Python value as `to_str`'s `isinstance` dispatch sees it: a `str`, a
`bytes`, or a value of any other type (the tests use `object()`). -/
inductive PyVal where
  | str (s : String)
  | bytes (b : List UInt8)
  | other
deriving Repr

/-- The observable outcome of a `to_str` call. -/
inductive Result where
  | ok (s : String)
  /-- `raise TypeError('Must supply str or bytes, found: %r' % data)`. -/
  | typeError
  /-- `data.decode('utf-8')` raised `UnicodeDecodeError` (bytes that are
  not valid UTF-8). -/
  | unicodeDecodeError
deriving DecidableEq, Repr

/-- Model of CPython's strict UTF-8 decoder, `bytes.decode('utf-8')`: maps
the byte list to the code points it encodes, rejecting stray continuation
bytes, truncated sequences, overlong encodings, surrogates, and code points
beyond U+10FFFF. -/
def utf8_decode : List UInt8 → Option (List Char)
  | [] => some []
  | b0 :: rest =>
    if b0 < 0x80 then
      -- one-byte (ASCII) sequence
      (utf8_decode rest).map (fun cs => Char.ofNat b0.toNat :: cs)
    else if b0 < 0xC2 then
      -- continuation byte in lead position, or overlong two-byte lead
      none
    else if b0 < 0xE0 then
      -- two-byte sequence, code points U+0080..U+07FF
      match rest with
      | b1 :: rest1 =>
        if 0x80 ≤ b1 ∧ b1 < 0xC0 then
          (utf8_decode rest1).map (fun cs =>
            Char.ofNat ((b0.toNat - 0xC0) * 0x40 + (b1.toNat - 0x80)) :: cs)
        else none
      | [] => none
    else if b0 < 0xF0 then
      -- three-byte sequence, code points U+0800..U+FFFF minus surrogates
      match rest with
      | b1 :: b2 :: rest2 =>
        let cp := (b0.toNat - 0xE0) * 0x1000 + (b1.toNat - 0x80) * 0x40 +
          (b2.toNat - 0x80)
        if (0x80 ≤ b1 ∧ b1 < 0xC0) ∧ (0x80 ≤ b2 ∧ b2 < 0xC0) ∧
            0x800 ≤ cp ∧ (cp < 0xD800 ∨ 0xDFFF < cp) then
          (utf8_decode rest2).map (fun cs => Char.ofNat cp :: cs)
        else none
      | _ => none
    else if b0 < 0xF5 then
      -- four-byte sequence, code points U+10000..U+10FFFF
      match rest with
      | b1 :: b2 :: b3 :: rest3 =>
        let cp := (b0.toNat - 0xF0) * 0x40000 + (b1.toNat - 0x80) * 0x1000 +
          (b2.toNat - 0x80) * 0x40 + (b3.toNat - 0x80)
        if (0x80 ≤ b1 ∧ b1 < 0xC0) ∧ (0x80 ≤ b2 ∧ b2 < 0xC0) ∧
            (0x80 ≤ b3 ∧ b3 < 0xC0) ∧ 0x10000 ≤ cp ∧ cp < 0x110000 then
          (utf8_decode rest3).map (fun cs => Char.ofNat cp :: cs)
        else none
      | _ => none
    else none

/-- `to_str(data)` (lines 44-51). -/
def to_str (data : PyVal) : Result :=
  match data with
  | .str s => .ok s
  | .bytes b =>
      match utf8_decode b with
      | some cs => .ok (String.mk cs)
      | none => .unicodeDecodeError
  | .other => .typeError

/-- C6: `to_str` returns its argument unchanged when the argument is a
`str`, returns the UTF-8 decoding of the argument when it is a `bytes`
value, and raises `TypeError` for a value of any other type — the
three-case contract asserted by `test_to_str_str`, `test_to_str_bytes`,
and `test_to_str_bad`. -/
theorem to_str_contract :
    (∀ s : String, to_str (.str s) = .ok s) ∧
    (∀ (b : List UInt8) (cs : List Char), utf8_decode b = some cs →
      to_str (.bytes b) = .ok (String.mk cs)) ∧
    to_str .other = .typeError := by
  refine ⟨fun s => rfl, ?_, rfl⟩
  intro b cs h
  simp [to_str, h]

/-- The bytes literal `b'hello'` of the tests. -/
def hello_bytes : List UInt8 := [0x68, 0x65, 0x6C, 0x6C, 0x6F]

/-- Witness for C6: the three unit-test assertions, concretely. -/
theorem to_str_contract_witness :
    to_str (.str "hello") = .ok "hello" ∧
    utf8_decode hello_bytes = some "hello".toList ∧
    to_str (.bytes hello_bytes) = .ok "hello" ∧
    to_str .other = .typeError :=
  ⟨to_str_contract.1 "hello", by decide,
   to_str_contract.2.1 hello_bytes "hello".toList (by decide),
   to_str_contract.2.2⟩

end Item56

namespace Repo

/-! ## The repository's import structure

C5 says every source file is independently runnable, with no data flow
between files and no dependency graph.  Executing a Python file runs its
`import` statements, so the claim requires every imported module to be
available without any other repository file: in particular no file may
depend on another repository file, nor on a repository-local module that no
file provides.  The two tables below are read off the source: `repoModules`
lists the module name of every `.py` file under the repository root, and
`fileImports` lists, for every file, the modules its `import` statements
name (all are module-level statements at column 0, except item_57's
function-local `import pdb`; for `from M import N` the module is `M`; the
two `from . models` / `from . utils` relative imports of item_50 are
recorded as `.models` / `.utils`). -/

/-- The module names of the repository's own source files. -/
def repoModules : List String :=
  ["item_01_version_of_python", "item_02_PEP8Style",
   "item_03_Difference_bytes_str_unicode", "item_04_helper_function",
   "item_05_slice_sequence", "item_06_avoid_using",
   "item_07_list_not_map_filter", "item_08_no_more_than_2_expressions",
   "item_09_generator_expressions", "item_10_prefer_enumerate",
   "item_11_use_zip", "item_12_avoid_else",
   "item_13_try_except_else_finally", "item_14_prefer_exceptions",
   "item_15_closure_variable_scope", "item_16_generators_instead_of_lists",
   "item_17_be_defensive", "item_18_reduce_visual_noise",
   "item_19_provide_optimal_behavior", "item_20_use_none_and_docstrings",
   "item_21_enforce_clarity", "item_22_prefer_helper_classes",
   "item_23_accepts_functions_4_interfaces", "item_24_use_classmethod",
   "item_25_init_parent_classes_with_super",
   "item_26_when_use_multiple_inheritance",
   "item_27_prefer_public_attributes",
   "item_28_inherit_from_collections_abc", "item_29_use_plain_attributes",
   "item_30_consider_property", "item_31_use_descriptors",
   "item_32_use_getattr", "item_33_validate_subclass",
   "item_34_register_class_existence", "item_35_annotate_class_attributes",
   "item_36_use_subprocess", "item_37_use_threads", "item_38_use_lock",
   "item_39_use_queue", "item_40_consider_coroutines",
   "item_41_consider_concurrent_futures",
   "item_42_define_function_decorators", "item_43_consider_contexlib",
   "item_44_make_pickle_reliable", "item_45_use_datetime",
   "item_46_use_built_in_algorithm", "item_47_use_decimal",
   "item_48_community_built_modules",
   "item_49_write_docstrings_4_everything", "item_50_use_packages",
   "item_51_define_a_root_exception", "item_52_break_circular_dependencies",
   "item_53_use_virtual_environments", "item_54_consider_module_scoped_code",
   "item_55_use_repr_strings", "item_56_test_utils", "item_56_unittest",
   "item_57_pdb", "item_58_profile_before_optimizing",
   "item_59_use_tracemalloc", "item_59_use_tracemalloc_top_n",
   "item_59_use_tracemalloc_using_gc", "item_59_use_tracemalloc_with_trace",
   "item_use_classmethod"]

/-- For every source file (by module name), the modules its `import`
statements name (duplicates dropped). -/
def fileImports : List (String × List String) :=
  [("item_01_version_of_python", ["sys"]),
   ("item_02_PEP8Style", []),
   ("item_03_Difference_bytes_str_unicode", ["os"]),
   ("item_04_helper_function", ["urllib.parse"]),
   ("item_05_slice_sequence", []),
   ("item_06_avoid_using", []),
   ("item_07_list_not_map_filter", []),
   ("item_08_no_more_than_2_expressions", []),
   ("item_09_generator_expressions", []),
   ("item_10_prefer_enumerate", ["random"]),
   ("item_11_use_zip", []),
   ("item_12_avoid_else", []),
   ("item_13_try_except_else_finally", ["json"]),
   ("item_14_prefer_exceptions", []),
   ("item_15_closure_variable_scope", []),
   ("item_16_generators_instead_of_lists", ["itertools"]),
   ("item_17_be_defensive", []),
   ("item_18_reduce_visual_noise", []),
   ("item_19_provide_optimal_behavior", []),
   ("item_20_use_none_and_docstrings", ["datetime", "time", "json"]),
   ("item_21_enforce_clarity", []),
   ("item_22_prefer_helper_classes", ["collections"]),
   ("item_23_accepts_functions_4_interfaces", ["collections"]),
   ("item_24_use_classmethod", ["os", "threading", "tempfile"]),
   ("item_25_init_parent_classes_with_super", ["pprint"]),
   ("item_26_when_use_multiple_inheritance", ["json"]),
   ("item_27_prefer_public_attributes", []),
   ("item_28_inherit_from_collections_abc", ["collections"]),
   ("item_29_use_plain_attributes", []),
   ("item_30_consider_property", ["datetime"]),
   ("item_31_use_descriptors", ["weakref"]),
   ("item_32_use_getattr", []),
   ("item_33_validate_subclass", []),
   ("item_34_register_class_existence", ["json"]),
   ("item_35_annotate_class_attributes", []),
   ("item_36_use_subprocess", ["subprocess", "time", "os"]),
   ("item_37_use_threads", ["time", "threading", "select"]),
   ("item_38_use_lock", ["threading"]),
   ("item_39_use_queue", ["collections", "threading", "time", "queue"]),
   ("item_40_consider_coroutines", ["collections"]),
   ("item_41_consider_concurrent_futures", ["time", "concurrent.futures"]),
   ("item_42_define_function_decorators", ["functools"]),
   ("item_43_consider_contexlib", ["threading", "logging", "contextlib"]),
   ("item_44_make_pickle_reliable", ["pickle", "copyreg"]),
   ("item_45_use_datetime", ["time", "datetime", "pytz"]),
   ("item_46_use_built_in_algorithm",
     ["collections", "random", "heapq", "bisect"]),
   ("item_47_use_decimal", ["decimal"]),
   ("item_48_community_built_modules", []),
   ("item_49_write_docstrings_4_everything", []),
   ("item_50_use_packages", [".models", ".utils", "mypackage"]),
   ("item_51_define_a_root_exception", []),
   ("item_52_break_circular_dependencies", []),
   ("item_53_use_virtual_environments", []),
   ("item_54_consider_module_scoped_code", ["sys"]),
   ("item_55_use_repr_strings", []),
   ("item_56_test_utils", ["unittest", "item_56_utils", "tempfile"]),
   ("item_56_unittest", ["unittest", "item_56_utils"]),
   ("item_57_pdb", ["pdb"]),
   ("item_58_profile_before_optimizing",
     ["random", "profile", "pstats", "bisect"]),
   ("item_59_use_tracemalloc",
     ["item_59_use_tracemalloc_using_gc", "item_59_use_tracemalloc_top_n",
      "item_59_use_tracemalloc_with_trace"]),
   ("item_59_use_tracemalloc_top_n",
     ["tracemalloc", "item_59_use_tracemalloc_waste_memory"]),
   ("item_59_use_tracemalloc_using_gc",
     ["gc", "item_59_use_tracemalloc_waste_memory"]),
   ("item_59_use_tracemalloc_with_trace",
     ["tracemalloc", "item_59_use_tracemalloc_waste_memory"]),
   ("item_use_classmethod", [])]

/-- The modules available without any repository file: the Python standard
library modules the files use, plus the installable third-party package
`pytz` used by item_45. -/
def externalModules : List String :=
  ["sys", "os", "urllib.parse", "random", "json", "itertools", "datetime",
   "time", "collections", "pprint", "weakref", "subprocess", "select",
   "threading", "tempfile", "queue", "concurrent.futures", "functools",
   "logging", "contextlib", "pickle", "copyreg", "heapq", "bisect",
   "decimal", "unittest", "pdb", "tracemalloc", "gc", "profile", "pstats",
   "pytz"]

/-- The import-level reading of C5: every import of every file names a
module that is not another repository file and that is available without
the repository (standard library or installed third-party). -/
def independent_of_repo : Prop :=
  ∀ p ∈ fileImports, ∀ m ∈ p.2, m ∉ repoModules ∧ m ∈ externalModules

instance : Decidable independent_of_repo := by
  unfold independent_of_repo; infer_instance

/-- Counterexample to C5: `item_59_use_tracemalloc.py` imports three other
files of the repository at module level (`import
item_59_use_tracemalloc_using_gc`, line 27, etc.), so the repository does
have a dependency graph; and the statement `from item_56_utils import
to_str` (line 3 of `item_56_unittest.py`) names a module that neither the
repository nor the standard library provides, so executing that file stops
at the import with `ModuleNotFoundError` rather than running to
completion. -/
theorem repo_files_depend_on_each_other :
    ("item_59_use_tracemalloc",
      ["item_59_use_tracemalloc_using_gc", "item_59_use_tracemalloc_top_n",
       "item_59_use_tracemalloc_with_trace"]) ∈ fileImports ∧
    "item_59_use_tracemalloc_using_gc" ∈ repoModules ∧
    ("item_56_unittest", ["unittest", "item_56_utils"]) ∈ fileImports ∧
    "item_56_utils" ∉ repoModules ∧
    "item_56_utils" ∉ externalModules ∧
    ¬ independent_of_repo := by
  refine ⟨by decide, by decide, by decide, by decide, by decide, ?_⟩
  intro h
  have := (h ("item_59_use_tracemalloc",
      ["item_59_use_tracemalloc_using_gc", "item_59_use_tracemalloc_top_n",
       "item_59_use_tracemalloc_with_trace"]) (by decide)
    "item_59_use_tracemalloc_using_gc" (by decide)).1
  exact this (by decide)

/-- The files whose imports break independence: item_50 imports the
package modules `.models`, `.utils` and `mypackage` that exist nowhere; the
two item_56 files import the missing `item_56_utils`; the main item_59
file imports three sibling repository files; and the three item_59 helpers
all import the missing `item_59_use_tracemalloc_waste_memory`. -/
def offending_files : List String :=
  ["item_50_use_packages", "item_56_test_utils", "item_56_unittest",
   "item_59_use_tracemalloc", "item_59_use_tracemalloc_top_n",
   "item_59_use_tracemalloc_using_gc", "item_59_use_tracemalloc_with_trace"]

/-- C5 as amended: every source file other than the seven `offending_files`
imports only modules that are not repository files and are available from
the standard library (or the installed `pytz`), so each of those files is
free of intra-repository dependencies; the seven exceptions either import
another repository file or import a repository-style module that no file
provides, so running them fails at the import. -/
theorem repo_imports_independent_except :
    ∀ p ∈ fileImports, p.1 ∉ offending_files →
      ∀ m ∈ p.2, m ∉ repoModules ∧ m ∈ externalModules := by
  decide

/-- Witness for the amended C5 at a concrete file: item_01 imports only
`sys`, a standard-library module that is not a repository file. -/
theorem repo_imports_independent_except_witness :
    ("item_01_version_of_python", ["sys"]) ∈ fileImports ∧
    "sys" ∉ repoModules ∧ "sys" ∈ externalModules :=
  have h := repo_imports_independent_except
    ("item_01_version_of_python", ["sys"]) (by decide) (by decide)
    "sys" (by decide)
  ⟨by decide, h.1, h.2⟩

end Repo
